import Mathlib

/-!
Shallow embedding of `src/userspace/camera_info.cpp`, a diagnostic tool that
locates the `v4l2-ctl` backend on `PATH`, enumerates `/dev/video*` character
devices, and for each device runs two backend queries (`--all` and
`--list-formats-ext`), streaming their output into a labeled report.

The host environment (environment variables, filesystem, child-process
behaviour) is modelled by the record `Env`.  The program is modelled as a pure
function from `Env` to a trace of output events (`Ev`) together with the
process exit code.  Each event is tagged by the source statement that emits it;
`render` recovers the exact bytes the statement writes to standard output, so
byte-level properties of the report are `stdoutOf` of the trace.
-/

/-- The host environment observed by one run of the program:
`pathEnv` is the value of the `PATH` variable (`none` = unset);
`isExec` says whether `access(s, X_OK) == 0`;
`globMatches` is the result of `glob("/dev/video*")` in glob order
(`[]` covers both `GLOB_NOMATCH` and other glob failures, which the
program treats identically);
`isCharDev` says whether `stat` succeeds and reports `S_ISCHR`;
`spawn` is the behaviour of `popen(cmd, "r")`: `none` = popen failed,
`some ls` = the chunks `fgets` returns before end of stream;
`pcloseStatus` is the value `pclose` returns after draining `cmd`;
`strerr` is the `strerror(errno)` text observed after a failed `pclose`. -/
structure Env where
  pathEnv : Option String
  isExec : String → Bool
  globMatches : List String
  isCharDev : String → Bool
  spawn : String → Option (List String)
  pcloseStatus : String → Int
  strerr : String → String

/-- One step of `std::getline(ss, token, ':')` splitting, mirroring the C++
semantics: a token is read up to a `':'` (consumed) or end of input; a fresh
read at end of input fails, so a trailing `':'` yields no extra empty token. -/
def splitAux : List Char → List Char → List String
  | [], acc => [String.mk acc.reverse]
  | c :: rest, acc =>
    if c = ':' then
      String.mk acc.reverse ::
        (match rest with
         | [] => []
         | r :: rs => splitAux (r :: rs) [])
    else splitAux rest (c :: acc)

/-- The token list `while (std::getline(ss, token, ':'))` produces for `s`. -/
def getlineSplit (s : String) : List String :=
  match s.data with
  | [] => []
  | c :: rest => splitAux (c :: rest) []

/-- `token + "/v4l2-ctl"`: the candidate path built from one `PATH` entry. -/
def candidateOf (t : String) : String := t ++ "/v4l2-ctl"

/-- The `while (std::getline(...))` loop body of `findV4l2Ctl`: skip empty
tokens, return the first candidate that passes the `access(..., X_OK)` check. -/
def findLoop (env : Env) : List String → Option String
  | [] => none
  | t :: rest =>
    if t = "" then findLoop env rest
    else if env.isExec (candidateOf t) then some (candidateOf t)
    else findLoop env rest

/-- `findV4l2Ctl`: look up `PATH`; if unset report not-found, otherwise scan
the `':'`-separated entries in order for an executable `<entry>/v4l2-ctl`. -/
def findV4l2Ctl (env : Env) : Option String :=
  match env.pathEnv with
  | none => none
  | some s => findLoop env (getlineSplit s)

/-- Output events of the program, tagged by the emitting source statement.
`out` is fixed program text on stdout; `label` is a `>>> ...` section label
line; `banner` is the device-delimiter block (rule, `DEVICE:` line, rule,
blank line); `listed` is one `  - <path>` discovery-listing line; `fwd` is a
chunk of backend output forwarded verbatim by the `fgets` loop; `err` is text
written to stderr; `globScan` records the `glob()` call on the device
namespace; `spawn` records a `popen()` attempt for one backend command. -/
inductive Ev where
  | out (s : String)
  | label (s : String)
  | banner (dev : String)
  | listed (dev : String)
  | fwd (s : String)
  | err (s : String)
  | globScan (pat : String)
  | spawn (cmd : String)
  deriving DecidableEq

/-- The 80-character `'='` rule used around the `DEVICE:` line. -/
def rule80 : String := String.mk (List.replicate 80 '=')

/-- The bytes an event contributes to standard output (stderr events,
`glob` calls and `popen` attempts write nothing to stdout). -/
def render : Ev → String
  | Ev.out s => s
  | Ev.label s => s
  | Ev.banner d => rule80 ++ "\n" ++ "DEVICE: " ++ d ++ "\n" ++ rule80 ++ "\n\n"
  | Ev.listed d => "  - " ++ d ++ "\n"
  | Ev.fwd s => s
  | Ev.err _ => ""
  | Ev.globScan _ => ""
  | Ev.spawn _ => ""

/-- The full standard-output byte stream of a trace. -/
def stdoutOf (tr : List Ev) : String := String.join (tr.map render)

/-- Diagnostic printed when `popen` fails for `cmd`. -/
def failMsg (cmd : String) : String := "Failed to run command: " ++ cmd ++ "\n"

/-- Diagnostic printed when `pclose` itself fails (returns `-1`). -/
def closeMsg (e : String) : String := "Error closing command stream: " ++ e ++ "\n"

/-- Marker line emitted when a backend invocation printed nothing. -/
def noOutputMarker : String := "(no output)\n"

/-- `runCommandAndPrint`: run `cmd` via `popen`, forward every chunk of its
stdout verbatim, emit the `(no output)` marker if nothing was printed, then
`pclose`; returns `-1` on `popen` failure or when `pclose` returns `-1`,
else `0`.  The child's own exit status is never compared to anything but
`-1`. -/
def runCommandAndPrint (env : Env) (cmd : String) : List Ev × Int :=
  match env.spawn cmd with
  | none => ([Ev.spawn cmd, Ev.err (failMsg cmd)], -1)
  | some ls =>
    let body := ls.map Ev.fwd ++ (if ls.isEmpty then [Ev.out noOutputMarker] else [])
    if env.pcloseStatus cmd = -1 then
      (Ev.spawn cmd :: body ++ [Ev.err (closeMsg (env.strerr cmd))], -1)
    else
      (Ev.spawn cmd :: body, 0)

/-- Label of the general-capabilities section. -/
def allLabel : String := ">>> BASIC INFORMATION AND CAPABILITIES (v4l2-ctl --all)\n"

/-- Label of the extended format-enumeration section. -/
def extLabel : String := ">>> SUPPORTED FORMATS AND RESOLUTIONS (v4l2-ctl --list-formats-ext)\n"

/-- The general-capabilities command line built for device `dev`. -/
def cmdAll (p dev : String) : String :=
  "\"" ++ p ++ "\" --device=\"" ++ dev ++ "\" --all"

/-- The extended format-enumeration command line built for device `dev`. -/
def cmdExt (p dev : String) : String :=
  "\"" ++ p ++ "\" --device=\"" ++ dev ++ "\" --list-formats-ext"

/-- `inspectDevice`: device banner, then the two labeled sections, each a
backend invocation whose return code is ignored, each followed by a blank
line. -/
def inspectDevice (env : Env) (p dev : String) : List Ev :=
  [Ev.banner dev, Ev.label allLabel] ++
  (runCommandAndPrint env (cmdAll p dev)).1 ++
  [Ev.out "\n", Ev.label extLabel] ++
  (runCommandAndPrint env (cmdExt p dev)).1 ++
  [Ev.out "\n"]

/-- Fatal stderr diagnostic when `v4l2-ctl` is not found on `PATH`. -/
def errNotFound : String :=
  "ERROR: `v4l2-ctl` not found in PATH.\nInstall `v4l-utils` (e.g. `sudo apt-get install v4l-utils`) to use this inspection tool.\n"

/-- The fixed startup banner and context block. -/
def headerEvs : List Ev :=
  [Ev.out "Camera / V4L2 Device Inspection (C++ version)\n",
   Ev.out "---------------------------------------------\n\n",
   Ev.out "Context:\n",
   Ev.out "- /dev/video* nodes are exposed by the Linux kernel's V4L2 subsystem.\n",
   Ev.out "- Drivers (e.g. `uvcvideo` for USB cameras) register these devices.\n",
   Ev.out "- This program uses `v4l2-ctl` as a front-end to V4L2 ioctls to report\n",
   Ev.out "  the driver- and hardware-exposed capabilities to userspace.\n\n"]

/-- The glob pattern rooted at the device namespace. -/
def globPat : String := "/dev/video*"

/-- Message when the glob pattern matched nothing. -/
def noGlobMsg : String :=
  "No /dev/video* devices found. Is a camera connected and recognized?\n"

/-- Message when matches existed but none was a character device. -/
def noCharMsg : String := "No character-device /dev/video* nodes found.\n"

/-- `main` (renamed: Lean reserves `main` for executables): locate the backend (fatal diagnostic and exit 1 on failure, before
any device-namespace scan); print the context block; glob the device
namespace; filter matches to character devices, listing the survivors; handle
the two empty cases with informational messages and exit 0; otherwise inspect
each device in discovery order and exit 0. -/
def mainFn (env : Env) : List Ev × Nat :=
  match findV4l2Ctl env with
  | none => ([Ev.err errNotFound], 1)
  | some p =>
    let pre := headerEvs ++ [Ev.globScan globPat]
    if env.globMatches.isEmpty then
      (pre ++ [Ev.out noGlobMsg], 0)
    else
      let devices := env.globMatches.filter env.isCharDev
      let listing :=
        [Ev.out "Discovered video devices:\n"] ++ devices.map Ev.listed ++ [Ev.out "\n"]
      if devices.isEmpty then
        (pre ++ listing ++ [Ev.out noCharMsg], 0)
      else
        (pre ++ listing ++ devices.flatMap (inspectDevice env p), 0)

/-- The device paths of the `banner` events of a trace, in order. -/
def bannersIn (tr : List Ev) : List String :=
  tr.filterMap fun e => match e with | Ev.banner d => some d | _ => none

/-- The device paths of the `listed` events of a trace, in order. -/
def listedIn (tr : List Ev) : List String :=
  tr.filterMap fun e => match e with | Ev.listed d => some d | _ => none

/-- The commands of the `popen` attempts of a trace, in order. -/
def spawnsIn (tr : List Ev) : List String :=
  tr.filterMap fun e => match e with | Ev.spawn c => some c | _ => none

/-- The stderr texts of a trace, in order. -/
def errsIn (tr : List Ev) : List String :=
  tr.filterMap fun e => match e with | Ev.err s => some s | _ => none

/-- The forwarded backend-output chunks of a trace, in order. -/
def fwdsIn (tr : List Ev) : List String :=
  tr.filterMap fun e => match e with | Ev.fwd s => some s | _ => none

/-- The `glob` patterns scanned in a trace, in order. -/
def scansIn (tr : List Ev) : List String :=
  tr.filterMap fun e => match e with | Ev.globScan s => some s | _ => none

/-- The section labels and `popen` attempts of a trace, in order, kept as
events: this records how invocations interleave with their section labels. -/
def labelSpawnIn (tr : List Ev) : List Ev :=
  tr.filter fun e => match e with | Ev.label _ => true | Ev.spawn _ => true | _ => false

/-- Sanity check of the `getline` model: the C++ loop reads nothing from an
empty stream and reads no extra empty token after a trailing separator. -/
lemma getlineSplit_examples :
    getlineSplit "" = [] ∧
    getlineSplit "a:" = ["a"] ∧
    getlineSplit ":" = [""] ∧
    getlineSplit "a::b" = ["a", "", "b"] ∧
    getlineSplit "/usr/bin:/bin" = ["/usr/bin", "/bin"] := by
  refine ⟨?_, ?_, ?_, ?_, ?_⟩ <;> decide

/-! ### Helper lemmas on the trace extractors -/

lemma bannersIn_append (a b : List Ev) :
    bannersIn (a ++ b) = bannersIn a ++ bannersIn b := by
  simp [bannersIn]

lemma listedIn_append (a b : List Ev) :
    listedIn (a ++ b) = listedIn a ++ listedIn b := by
  simp [listedIn]

lemma spawnsIn_append (a b : List Ev) :
    spawnsIn (a ++ b) = spawnsIn a ++ spawnsIn b := by
  simp [spawnsIn]

lemma errsIn_append (a b : List Ev) :
    errsIn (a ++ b) = errsIn a ++ errsIn b := by
  simp [errsIn]

lemma labelSpawnIn_append (a b : List Ev) :
    labelSpawnIn (a ++ b) = labelSpawnIn a ++ labelSpawnIn b := by
  simp [labelSpawnIn]

lemma bannersIn_run (env : Env) (c : String) :
    bannersIn (runCommandAndPrint env c).1 = [] := by
  cases h : env.spawn c with
  | none => simp [runCommandAndPrint, h, bannersIn]
  | some ls =>
    by_cases hp : env.pcloseStatus c = -1 <;>
      cases ls <;>
        simp [runCommandAndPrint, h, hp, bannersIn, List.filterMap_cons]

lemma listedIn_run (env : Env) (c : String) :
    listedIn (runCommandAndPrint env c).1 = [] := by
  cases h : env.spawn c with
  | none => simp [runCommandAndPrint, h, listedIn]
  | some ls =>
    by_cases hp : env.pcloseStatus c = -1 <;>
      cases ls <;>
        simp [runCommandAndPrint, h, hp, listedIn, List.filterMap_cons]

lemma spawnsIn_run (env : Env) (c : String) :
    spawnsIn (runCommandAndPrint env c).1 = [c] := by
  cases h : env.spawn c with
  | none => simp [runCommandAndPrint, h, spawnsIn]
  | some ls =>
    by_cases hp : env.pcloseStatus c = -1 <;>
      cases ls <;>
        simp [runCommandAndPrint, h, hp, spawnsIn, List.filterMap_cons]

lemma labelSpawnIn_run (env : Env) (c : String) :
    labelSpawnIn (runCommandAndPrint env c).1 = [Ev.spawn c] := by
  cases h : env.spawn c with
  | none => simp [runCommandAndPrint, h, labelSpawnIn]
  | some ls =>
    by_cases hp : env.pcloseStatus c = -1 <;>
      cases ls <;>
        simp [runCommandAndPrint, h, hp, labelSpawnIn, List.filter_cons]

lemma bannersIn_inspect (env : Env) (p dev : String) :
    bannersIn (inspectDevice env p dev) = [dev] := by
  unfold inspectDevice
  rw [bannersIn_append, bannersIn_append, bannersIn_append, bannersIn_append,
      bannersIn_run, bannersIn_run]
  simp [bannersIn]

lemma listedIn_inspect (env : Env) (p dev : String) :
    listedIn (inspectDevice env p dev) = [] := by
  unfold inspectDevice
  rw [listedIn_append, listedIn_append, listedIn_append, listedIn_append,
      listedIn_run, listedIn_run]
  simp [listedIn]

lemma spawnsIn_inspect (env : Env) (p dev : String) :
    spawnsIn (inspectDevice env p dev) = [cmdAll p dev, cmdExt p dev] := by
  unfold inspectDevice
  rw [spawnsIn_append, spawnsIn_append, spawnsIn_append, spawnsIn_append,
      spawnsIn_run, spawnsIn_run]
  simp [spawnsIn]

lemma labelSpawnIn_inspect (env : Env) (p dev : String) :
    labelSpawnIn (inspectDevice env p dev) =
      [Ev.label allLabel, Ev.spawn (cmdAll p dev),
       Ev.label extLabel, Ev.spawn (cmdExt p dev)] := by
  unfold inspectDevice
  rw [labelSpawnIn_append, labelSpawnIn_append, labelSpawnIn_append,
      labelSpawnIn_append, labelSpawnIn_run, labelSpawnIn_run]
  simp [labelSpawnIn]

lemma bannersIn_flatMap (env : Env) (p : String) (ds : List String) :
    bannersIn (ds.flatMap (inspectDevice env p)) = ds := by
  induction ds with
  | nil => simp [bannersIn]
  | cons d ds ih => simp [List.flatMap_cons, bannersIn_append, bannersIn_inspect, ih]

lemma listedIn_flatMap (env : Env) (p : String) (ds : List String) :
    listedIn (ds.flatMap (inspectDevice env p)) = [] := by
  induction ds with
  | nil => simp [listedIn]
  | cons d ds ih => simp [List.flatMap_cons, listedIn_append, listedIn_inspect, ih]

lemma spawnsIn_flatMap (env : Env) (p : String) (ds : List String) :
    spawnsIn (ds.flatMap (inspectDevice env p)) =
      ds.flatMap (fun d => [cmdAll p d, cmdExt p d]) := by
  induction ds with
  | nil => simp [spawnsIn]
  | cons d ds ih => simp [List.flatMap_cons, spawnsIn_append, spawnsIn_inspect, ih]

lemma labelSpawnIn_flatMap (env : Env) (p : String) (ds : List String) :
    labelSpawnIn (ds.flatMap (inspectDevice env p)) =
      ds.flatMap (fun d =>
        [Ev.label allLabel, Ev.spawn (cmdAll p d),
         Ev.label extLabel, Ev.spawn (cmdExt p d)]) := by
  induction ds with
  | nil => simp [labelSpawnIn]
  | cons d ds ih => simp [List.flatMap_cons, labelSpawnIn_append, labelSpawnIn_inspect, ih]

lemma bannersIn_listing (ds : List String) :
    bannersIn (ds.map Ev.listed) = [] := by
  induction ds with
  | nil => rfl
  | cons d ds ih => simp [bannersIn, List.filterMap_cons, ih]

lemma listedIn_listing (ds : List String) :
    listedIn (ds.map Ev.listed) = ds := by
  induction ds with
  | nil => rfl
  | cons d ds ih => simpa [listedIn, List.filterMap_cons] using ih

lemma spawnsIn_listing (ds : List String) :
    spawnsIn (ds.map Ev.listed) = [] := by
  induction ds with
  | nil => rfl
  | cons d ds ih => simp [spawnsIn, List.filterMap_cons, ih]

lemma labelSpawnIn_listing (ds : List String) :
    labelSpawnIn (ds.map Ev.listed) = [] := by
  induction ds with
  | nil => rfl
  | cons d ds ih => simp [labelSpawnIn, List.filter_cons, ih]

/-! ### C1 -/

/-- C1: whenever the backend locator fails, `main` writes exactly the fatal
diagnostic (naming `v4l2-ctl` and the `v4l-utils` install hint) to stderr,
exits with status 1, performs no device-namespace `glob` scan, and emits no
banner and no stdout bytes at all. -/
theorem backend_missing_fatal (env : Env) (h : findV4l2Ctl env = none) :
    mainFn env = ([Ev.err errNotFound], 1) ∧
    scansIn (mainFn env).1 = [] ∧
    bannersIn (mainFn env).1 = [] ∧
    stdoutOf (mainFn env).1 = "" := by
  simp [mainFn, h, scansIn, bannersIn, stdoutOf, render, String.join]

/-- A concrete environment with no `PATH` variable set. -/
def envNoPath : Env :=
  { pathEnv := none
    isExec := fun _ => false
    globMatches := ["/dev/video0"]
    isCharDev := fun _ => true
    spawn := fun _ => some ["x\n"]
    pcloseStatus := fun _ => 0
    strerr := fun _ => "" }

/-- Witness for C1 at a concrete environment with `PATH` unset. -/
theorem backend_missing_fatal_witness :
    mainFn envNoPath = ([Ev.err errNotFound], 1) ∧
    scansIn (mainFn envNoPath).1 = [] ∧
    bannersIn (mainFn envNoPath).1 = [] ∧
    stdoutOf (mainFn envNoPath).1 = "" :=
  backend_missing_fatal envNoPath rfl

/-! ### C2 -/

/-- In the reporting branch (backend found, at least one character device),
`mainFn` is the context block, the `glob` scan, the discovery listing, and one
`inspectDevice` block per device in discovery order, with exit status 0. -/
lemma mainFn_report (env : Env) (p : String)
    (hp : findV4l2Ctl env = some p)
    (hne : env.globMatches.filter env.isCharDev ≠ []) :
    mainFn env =
      (headerEvs ++ [Ev.globScan globPat] ++
        ([Ev.out "Discovered video devices:\n"] ++
          (env.globMatches.filter env.isCharDev).map Ev.listed ++ [Ev.out "\n"]) ++
        (env.globMatches.filter env.isCharDev).flatMap (inspectDevice env p), 0) := by
  have hg : env.globMatches ≠ [] := by
    intro h
    exact hne (by simp [h])
  simp [mainFn, hp, hg, hne]

/-- C2: with a located backend and `N ≥ 1` discovered character devices, the
report contains exactly `N` device banners, in discovery order, and the
section labels and `popen` attempts of the whole run are, in order, exactly
`--all` label, `--all` invocation, `--list-formats-ext` label,
`--list-formats-ext` invocation for each device in turn; the exit status
is 0. -/
theorem report_structure (env : Env) (p : String)
    (hp : findV4l2Ctl env = some p)
    (hne : env.globMatches.filter env.isCharDev ≠ []) :
    bannersIn (mainFn env).1 = env.globMatches.filter env.isCharDev ∧
    labelSpawnIn (mainFn env).1 =
      (env.globMatches.filter env.isCharDev).flatMap
        (fun d => [Ev.label allLabel, Ev.spawn (cmdAll p d),
                   Ev.label extLabel, Ev.spawn (cmdExt p d)]) ∧
    (mainFn env).2 = 0 := by
  rw [mainFn_report env p hp hne]
  refine ⟨?_, ?_, rfl⟩
  · simp only [bannersIn_append, bannersIn_flatMap, bannersIn_listing]
    simp [bannersIn, headerEvs]
  · simp only [labelSpawnIn_append, labelSpawnIn_flatMap, labelSpawnIn_listing]
    simp [labelSpawnIn, headerEvs]

/-- A concrete environment with a backend at `/usr/bin/v4l2-ctl` and one
character device `/dev/video0` whose queries print one line each. -/
def envOneCam : Env :=
  { pathEnv := some "/usr/bin"
    isExec := fun s => s == "/usr/bin/v4l2-ctl"
    globMatches := ["/dev/video0"]
    isCharDev := fun s => s == "/dev/video0"
    spawn := fun _ => some ["hello\n"]
    pcloseStatus := fun _ => 0
    strerr := fun _ => "" }

/-- Witness for C2 at a concrete one-camera environment. -/
theorem report_structure_witness :
    bannersIn (mainFn envOneCam).1 = ["/dev/video0"] ∧
    labelSpawnIn (mainFn envOneCam).1 =
      [Ev.label allLabel, Ev.spawn (cmdAll "/usr/bin/v4l2-ctl" "/dev/video0"),
       Ev.label extLabel, Ev.spawn (cmdExt "/usr/bin/v4l2-ctl" "/dev/video0")] ∧
    (mainFn envOneCam).2 = 0 :=
  report_structure envOneCam "/usr/bin/v4l2-ctl" rfl (by decide)

/-! ### C3 -/

/-- C3: with a located backend, a `popen` failure for either of a device's
two queries — the general-capabilities one or the extended-format one — is
reported as a labeled error line for that command; all `2N` backend
invocations of the run are still attempted in order, every device still gets
its banner, and the exit status is still 0. -/
theorem spawn_failure_isolated (env : Env) (p d c : String)
    (hp : findV4l2Ctl env = some p)
    (hd : d ∈ env.globMatches.filter env.isCharDev)
    (hc : c = cmdAll p d ∨ c = cmdExt p d)
    (hfail : env.spawn c = none) :
    Ev.err (failMsg c) ∈ (mainFn env).1 ∧
    spawnsIn (mainFn env).1 =
      (env.globMatches.filter env.isCharDev).flatMap
        (fun x => [cmdAll p x, cmdExt p x]) ∧
    bannersIn (mainFn env).1 = env.globMatches.filter env.isCharDev ∧
    (mainFn env).2 = 0 := by
  have hne : env.globMatches.filter env.isCharDev ≠ [] := by
    intro h
    rw [h] at hd
    exact absurd hd (List.not_mem_nil d)
  rw [mainFn_report env p hp hne]
  refine ⟨?_, ?_, ?_, rfl⟩
  · have hin : Ev.err (failMsg c) ∈ inspectDevice env p d := by
      cases hc with
      | inl h => subst h; simp [inspectDevice, runCommandAndPrint, hfail]
      | inr h => subst h; simp [inspectDevice, runCommandAndPrint, hfail]
    have hmem : Ev.err (failMsg c) ∈
        (env.globMatches.filter env.isCharDev).flatMap (inspectDevice env p) :=
      List.mem_flatMap.mpr ⟨d, hd, hin⟩
    simp [List.mem_append, hmem]
  · simp only [spawnsIn_append, spawnsIn_flatMap, spawnsIn_listing]
    simp [spawnsIn, headerEvs]
  · simp only [bannersIn_append, bannersIn_flatMap, bannersIn_listing]
    simp [bannersIn, headerEvs]

/-- A concrete environment where `popen` fails for both queries of
`/dev/video0` and succeeds for everything else. -/
def envSpawnFail : Env :=
  { pathEnv := some "/usr/bin"
    isExec := fun s => s == "/usr/bin/v4l2-ctl"
    globMatches := ["/dev/video0"]
    isCharDev := fun s => s == "/dev/video0"
    spawn := fun c =>
      if c == cmdAll "/usr/bin/v4l2-ctl" "/dev/video0" ||
         c == cmdExt "/usr/bin/v4l2-ctl" "/dev/video0" then none
      else some ["ok\n"]
    pcloseStatus := fun _ => 0
    strerr := fun _ => "" }

/-- Witness for C3, exercising both failing invocations: the `--all` and the
`--list-formats-ext` spawn failures each yield their labeled error line, the
run still attempts both invocations, and it still exits 0. -/
theorem spawn_failure_isolated_witness :
    Ev.err (failMsg (cmdAll "/usr/bin/v4l2-ctl" "/dev/video0")) ∈
      (mainFn envSpawnFail).1 ∧
    Ev.err (failMsg (cmdExt "/usr/bin/v4l2-ctl" "/dev/video0")) ∈
      (mainFn envSpawnFail).1 ∧
    spawnsIn (mainFn envSpawnFail).1 =
      [cmdAll "/usr/bin/v4l2-ctl" "/dev/video0",
       cmdExt "/usr/bin/v4l2-ctl" "/dev/video0"] ∧
    bannersIn (mainFn envSpawnFail).1 = ["/dev/video0"] ∧
    (mainFn envSpawnFail).2 = 0 :=
  have h1 := spawn_failure_isolated envSpawnFail "/usr/bin/v4l2-ctl" "/dev/video0"
    (cmdAll "/usr/bin/v4l2-ctl" "/dev/video0") rfl (by decide) (Or.inl rfl) (by decide)
  have h2 := spawn_failure_isolated envSpawnFail "/usr/bin/v4l2-ctl" "/dev/video0"
    (cmdExt "/usr/bin/v4l2-ctl" "/dev/video0") rfl (by decide) (Or.inr rfl) (by decide)
  ⟨h1.1, h2.1, h2.2.1, h2.2.2.1, h2.2.2.2⟩

/-! ### Byte-stream lemmas -/

lemma join_cons (a : String) (l : List String) :
    String.join (a :: l) = a ++ String.join l := by
  apply String.ext
  simp [String.data_append]

lemma stdoutOf_nil : stdoutOf [] = "" := rfl

lemma stdoutOf_cons (e : Ev) (tr : List Ev) :
    stdoutOf (e :: tr) = render e ++ stdoutOf tr := by
  simp [stdoutOf, join_cons]

lemma stdoutOf_append (a b : List Ev) :
    stdoutOf (a ++ b) = stdoutOf a ++ stdoutOf b := by
  induction a with
  | nil => simp [stdoutOf_nil, String.empty_append]
  | cons e a ih => simp [stdoutOf_cons, ih, String.append_assoc]

lemma stdoutOf_mapFwd (ls : List String) :
    stdoutOf (ls.map Ev.fwd) = String.join ls := by
  induction ls with
  | nil => rfl
  | cons a l ih => simp [stdoutOf_cons, render, ih, join_cons]

/-! ### C4 -/

/-- C4: with a located backend, whenever discovery yields no character device
— the glob pattern matched nothing, or it matched entries none of which is a
character device — the run prints the corresponding informational no-camera
message, exits with status 0, and produces no banner and no backend
invocation. -/
theorem empty_deviceset_ok (env : Env) (p : String)
    (hp : findV4l2Ctl env = some p)
    (h : env.globMatches.filter env.isCharDev = []) :
    (mainFn env).2 = 0 ∧
    (Ev.out noGlobMsg ∈ (mainFn env).1 ∨ Ev.out noCharMsg ∈ (mainFn env).1) ∧
    bannersIn (mainFn env).1 = [] ∧
    spawnsIn (mainFn env).1 = [] := by
  cases hg : env.globMatches with
  | nil =>
    simp [mainFn, hp, hg, bannersIn, spawnsIn, headerEvs]
  | cons a l =>
    have hfe := h
    rw [hg] at hfe
    simp [mainFn, hp, hg, hfe, bannersIn, spawnsIn, headerEvs]

/-- A concrete environment whose only glob match is a regular file. -/
def envRegularFile : Env :=
  { pathEnv := some "/usr/bin"
    isExec := fun s => s == "/usr/bin/v4l2-ctl"
    globMatches := ["/dev/video0"]
    isCharDev := fun _ => false
    spawn := fun _ => some ["x\n"]
    pcloseStatus := fun _ => 0
    strerr := fun _ => "" }

/-- Witness for C4: matches exist but none is a character device. -/
theorem empty_deviceset_ok_witness :
    (mainFn envRegularFile).2 = 0 ∧
    (Ev.out noGlobMsg ∈ (mainFn envRegularFile).1 ∨
      Ev.out noCharMsg ∈ (mainFn envRegularFile).1) ∧
    bannersIn (mainFn envRegularFile).1 = [] ∧
    spawnsIn (mainFn envRegularFile).1 = [] :=
  empty_deviceset_ok envRegularFile "/usr/bin/v4l2-ctl" rfl (by decide)

/-! ### C5 -/

/-- C5: when a backend invocation is spawned successfully, its forwarded
output chunks are exactly the chunks the backend produced (verbatim, in
order); the section's stdout bytes are exactly the `(no output)` marker when
the backend printed nothing, and exactly the backend's own bytes otherwise. -/
theorem section_output (env : Env) (c : String) (ls : List String)
    (h : env.spawn c = some ls) :
    fwdsIn (runCommandAndPrint env c).1 = ls ∧
    (ls = [] → stdoutOf (runCommandAndPrint env c).1 = noOutputMarker) ∧
    (ls ≠ [] → stdoutOf (runCommandAndPrint env c).1 = String.join ls) := by
  by_cases hp : env.pcloseStatus c = -1 <;>
    cases ls with
    | nil =>
      refine ⟨?_, fun _ => ?_, fun hne => absurd rfl hne⟩ <;>
        simp [runCommandAndPrint, h, hp, fwdsIn, stdoutOf_cons, stdoutOf_append,
              stdoutOf_nil, render, String.append_empty, String.empty_append]
    | cons a l =>
      refine ⟨?_, fun he => absurd he (by simp), fun _ => ?_⟩
      · have hm : fwdsIn ((a :: l).map Ev.fwd) = a :: l := by
          induction (a :: l) with
          | nil => rfl
          | cons x xs ih => simp [fwdsIn, List.filterMap_cons] at ih ⊢; exact ih
        simp [runCommandAndPrint, h, hp, fwdsIn, List.filterMap_append,
              List.filterMap_cons] at hm ⊢
        exact hm
      · simp [runCommandAndPrint, h, hp, stdoutOf_cons, stdoutOf_append,
              stdoutOf_mapFwd, render, String.append_empty, String.empty_append,
              stdoutOf_nil, join_cons]

/-- A concrete environment whose backend prints nothing for any query. -/
def envSilent : Env :=
  { pathEnv := some "/usr/bin"
    isExec := fun s => s == "/usr/bin/v4l2-ctl"
    globMatches := ["/dev/video0"]
    isCharDev := fun s => s == "/dev/video0"
    spawn := fun _ => some []
    pcloseStatus := fun _ => 0
    strerr := fun _ => "" }

/-- Witness for C5 at a silent backend: the section is exactly the marker. -/
theorem section_output_witness :
    fwdsIn (runCommandAndPrint envSilent "q").1 = [] ∧
    stdoutOf (runCommandAndPrint envSilent "q").1 = noOutputMarker :=
  ⟨(section_output envSilent "q" [] rfl).1,
   (section_output envSilent "q" [] rfl).2.1 rfl⟩

/-! ### C6 -/

lemma listed_mem_iff (tr : List Ev) (d : String) :
    Ev.listed d ∈ tr ↔ d ∈ listedIn tr := by
  induction tr with
  | nil => simp [listedIn]
  | cons a tr ih => cases a <;> simp [listedIn, List.filterMap_cons] at ih ⊢ <;> simp [ih]

lemma banner_mem_iff (tr : List Ev) (d : String) :
    Ev.banner d ∈ tr ↔ d ∈ bannersIn tr := by
  induction tr with
  | nil => simp [bannersIn]
  | cons a tr ih => cases a <;> simp [bannersIn, List.filterMap_cons] at ih ⊢ <;> simp [ih]

lemma errsIn_flatMap (env : Env) (p : String) (ds : List String) :
    errsIn (ds.flatMap (inspectDevice env p)) =
      ds.flatMap (fun d => errsIn (inspectDevice env p d)) := by
  induction ds with
  | nil => simp [errsIn]
  | cons d ds ih => simp [List.flatMap_cons, errsIn_append, ih]

lemma listedIn_report (env : Env) (p : String)
    (hp : findV4l2Ctl env = some p)
    (hne : env.globMatches.filter env.isCharDev ≠ []) :
    listedIn (mainFn env).1 = env.globMatches.filter env.isCharDev := by
  rw [mainFn_report env p hp hne]
  simp only [listedIn_append, listedIn_flatMap, listedIn_listing]
  simp [listedIn, headerEvs]

/-- In the branch where glob matched entries but none is a character device,
`mainFn` is the context block, the scan, an empty listing, and the
informational message, with exit status 0. -/
lemma mainFn_nochar (env : Env) (p : String)
    (hp : findV4l2Ctl env = some p)
    (hg : env.globMatches ≠ [])
    (hfe : env.globMatches.filter env.isCharDev = []) :
    mainFn env =
      (headerEvs ++ [Ev.globScan globPat] ++
        [Ev.out "Discovered video devices:\n", Ev.out "\n", Ev.out noCharMsg], 0) := by
  simp [mainFn, hp, hg, hfe]

/-- C6: a glob match that is not a character device is silently excluded: it
is absent from the DeviceSet, never listed, never gets a banner, triggers no
backend invocation (the run's invocations are exactly the two per accepted
device), and every stderr line of the run arises from an accepted device's
section. -/
theorem non_chardev_excluded (env : Env) (p e : String)
    (hp : findV4l2Ctl env = some p)
    (he : e ∈ env.globMatches)
    (hchar : env.isCharDev e = false) :
    e ∉ env.globMatches.filter env.isCharDev ∧
    Ev.listed e ∉ (mainFn env).1 ∧
    Ev.banner e ∉ (mainFn env).1 ∧
    spawnsIn (mainFn env).1 =
      (env.globMatches.filter env.isCharDev).flatMap
        (fun x => [cmdAll p x, cmdExt p x]) ∧
    errsIn (mainFn env).1 =
      (env.globMatches.filter env.isCharDev).flatMap
        (fun x => errsIn (inspectDevice env p x)) := by
  have hnotin : e ∉ env.globMatches.filter env.isCharDev := by
    simp [List.mem_filter, hchar]
  have hg : env.globMatches ≠ [] := by
    intro h
    rw [h] at he
    exact absurd he (List.not_mem_nil e)
  by_cases hdev : env.globMatches.filter env.isCharDev = []
  · rw [mainFn_nochar env p hp hg hdev] at *
    refine ⟨hnotin, ?_, ?_, ?_, ?_⟩ <;> simp [hdev, headerEvs, spawnsIn, errsIn]
  · refine ⟨hnotin, ?_, ?_, ?_, ?_⟩
    · rw [listed_mem_iff, listedIn_report env p hp hdev]
      exact hnotin
    · rw [banner_mem_iff, (report_structure env p hp hdev).1]
      exact hnotin
    · rw [mainFn_report env p hp hdev]
      simp only [spawnsIn_append, spawnsIn_flatMap, spawnsIn_listing]
      simp [spawnsIn, headerEvs]
    · rw [mainFn_report env p hp hdev]
      simp only [errsIn_append, errsIn_flatMap]
      simp [errsIn, headerEvs, listedIn_listing]

/-- A concrete environment where `/dev/video1` matches the glob but is a
regular file while `/dev/video0` is a character device. -/
def envMixed : Env :=
  { pathEnv := some "/usr/bin"
    isExec := fun s => s == "/usr/bin/v4l2-ctl"
    globMatches := ["/dev/video0", "/dev/video1"]
    isCharDev := fun s => s == "/dev/video0"
    spawn := fun _ => some ["ok\n"]
    pcloseStatus := fun _ => 0
    strerr := fun _ => "" }

/-- Witness for C6: the regular file `/dev/video1` is silently excluded. -/
theorem non_chardev_excluded_witness :
    "/dev/video1" ∉ envMixed.globMatches.filter envMixed.isCharDev ∧
    Ev.listed "/dev/video1" ∉ (mainFn envMixed).1 ∧
    Ev.banner "/dev/video1" ∉ (mainFn envMixed).1 ∧
    spawnsIn (mainFn envMixed).1 =
      [cmdAll "/usr/bin/v4l2-ctl" "/dev/video0",
       cmdExt "/usr/bin/v4l2-ctl" "/dev/video0"] ∧
    errsIn (mainFn envMixed).1 =
      (envMixed.globMatches.filter envMixed.isCharDev).flatMap
        (fun x => errsIn (inspectDevice envMixed "/usr/bin/v4l2-ctl" x)) :=
  non_chardev_excluded envMixed "/usr/bin/v4l2-ctl" "/dev/video1"
    rfl (by decide) (by decide)

/-! ### C7 -/

/-- Spec-side description of the Backend Locator, stated with `List.find?`
instead of the source's loop: the first nonempty search-path entry whose
joined candidate is executable, mapped to that candidate; not-found when the
variable is absent. -/
def locateSpec (env : Env) : Option String :=
  match env.pathEnv with
  | none => none
  | some s =>
    ((getlineSplit s).find? fun t => !(t == "") && env.isExec (candidateOf t)).map
      candidateOf

lemma findLoop_eq_find (env : Env) (ts : List String) :
    findLoop env ts =
      (ts.find? fun t => !(t == "") && env.isExec (candidateOf t)).map candidateOf := by
  induction ts with
  | nil => rfl
  | cons t ts ih =>
    by_cases ht : t = ""
    · rw [List.find?_cons_of_neg _ (by simp [ht])]
      simp [findLoop, ht, ih]
    · by_cases hx : env.isExec (candidateOf t)
      · rw [List.find?_cons_of_pos _ (by simp [ht, hx])]
        simp [findLoop, ht, hx]
      · rw [List.find?_cons_of_neg _ (by simp [ht, hx])]
        simp [findLoop, ht, hx, ih]

/-- C7: the Backend Locator returns the first search-path entry (in order)
whose joined candidate is executable, and an absent or empty search-path
variable is treated identically to not-found. -/
theorem locator_first_match (env : Env) :
    findV4l2Ctl env = locateSpec env ∧
    (env.pathEnv = none → findV4l2Ctl env = none) ∧
    (env.pathEnv = some "" → findV4l2Ctl env = none) := by
  refine ⟨?_, ?_, ?_⟩
  · cases h : env.pathEnv with
    | none => simp [findV4l2Ctl, locateSpec, h]
    | some s => simp [findV4l2Ctl, locateSpec, h, findLoop_eq_find]
  · intro h
    simp [findV4l2Ctl, h]
  · intro h
    simp only [findV4l2Ctl, h]
    rfl

/-- A concrete environment where two search-path entries both hold an
executable candidate: `PATH=/opt:/usr/bin:/bin` with `/usr/bin/v4l2-ctl` and
`/bin/v4l2-ctl` both executable. -/
def envTwoHits : Env :=
  { pathEnv := some "/opt:/usr/bin:/bin"
    isExec := fun s => s == "/usr/bin/v4l2-ctl" || s == "/bin/v4l2-ctl"
    globMatches := []
    isCharDev := fun _ => false
    spawn := fun _ => some []
    pcloseStatus := fun _ => 0
    strerr := fun _ => "" }

/-- A concrete environment whose `PATH` variable is set but empty. -/
def envEmptyPath : Env :=
  { pathEnv := some ""
    isExec := fun _ => true
    globMatches := []
    isCharDev := fun _ => false
    spawn := fun _ => some []
    pcloseStatus := fun _ => 0
    strerr := fun _ => "" }

/-- Witness for C7: the earlier of two executable candidates wins, and both
the unset-`PATH` and the empty-`PATH` environments yield not-found. -/
theorem locator_first_match_witness :
    findV4l2Ctl envTwoHits = locateSpec envTwoHits ∧
    findV4l2Ctl envTwoHits = some "/usr/bin/v4l2-ctl" ∧
    findV4l2Ctl envNoPath = none ∧
    findV4l2Ctl envEmptyPath = none :=
  ⟨(locator_first_match envTwoHits).1, by decide,
   (locator_first_match envNoPath).2.1 rfl,
   (locator_first_match envEmptyPath).2.2 rfl⟩

/-! ### C8 -/

/-- A path is absolute when its first character is `'/'`. -/
def isAbsolutePath (s : String) : Bool :=
  match s.data with
  | [] => false
  | c :: _ => c == '/'

/-- A concrete environment whose `PATH` is the relative entry `"."` and where
`./v4l2-ctl` passes the executable check. -/
def envRelPath : Env :=
  { pathEnv := some "."
    isExec := fun s => s == "./v4l2-ctl"
    globMatches := []
    isCharDev := fun _ => false
    spawn := fun _ => some []
    pcloseStatus := fun _ => 0
    strerr := fun _ => "" }

/-- C8 counterexample: with `PATH=.`, the locator succeeds and the resulting
BackendPath `./v4l2-ctl` is not an absolute path, so the claim's absoluteness
invariant fails on the code. -/
theorem backendpath_absolute_cex :
    findV4l2Ctl envRelPath = some "./v4l2-ctl" ∧
    isAbsolutePath "./v4l2-ctl" = false := by
  constructor <;> rfl

lemma findLoop_some (env : Env) (ts : List String) (p : String)
    (h : findLoop env ts = some p) :
    ∃ t ∈ ts, t ≠ "" ∧ p = candidateOf t ∧ env.isExec (candidateOf t) = true := by
  induction ts with
  | nil => cases h
  | cons t ts ih =>
    by_cases ht : t = ""
    · rw [findLoop, if_pos ht] at h
      obtain ⟨u, hu, hprops⟩ := ih h
      exact ⟨u, List.mem_cons_of_mem t hu, hprops⟩
    · by_cases hx : env.isExec (candidateOf t)
      · rw [findLoop, if_neg ht, if_pos hx] at h
        exact ⟨t, List.mem_cons_self t ts, ht, (Option.some_inj.mp h).symm, hx⟩
      · rw [findLoop, if_neg ht, if_neg hx] at h
        obtain ⟨u, hu, hprops⟩ := ih h
        exact ⟨u, List.mem_cons_of_mem t hu, hprops⟩

lemma isAbsolutePath_append (t u : String) (h : t ≠ "") :
    isAbsolutePath (t ++ u) = isAbsolutePath t := by
  have hd : t.data ≠ [] := by
    intro hnil
    exact h (String.ext (hnil.trans rfl))
  cases hdata : t.data with
  | nil => exact absurd hdata hd
  | cons c cs => simp [isAbsolutePath, String.data_append, hdata]

/-- The backend invocations of any run with a located backend all use that
single BackendPath, for every branch of `mainFn`. -/
lemma spawnsIn_mainFn (env : Env) (p : String)
    (hp : findV4l2Ctl env = some p) :
    spawnsIn (mainFn env).1 =
      (env.globMatches.filter env.isCharDev).flatMap
        (fun x => [cmdAll p x, cmdExt p x]) := by
  by_cases hg : env.globMatches = []
  · simp [mainFn, hp, hg, spawnsIn, headerEvs]
  · by_cases hdev : env.globMatches.filter env.isCharDev = []
    · rw [mainFn_nochar env p hp hg hdev]
      simp [hdev, spawnsIn, headerEvs]
    · rw [mainFn_report env p hp hdev]
      simp only [spawnsIn_append, spawnsIn_flatMap, spawnsIn_listing]
      simp [spawnsIn, headerEvs]

/-- C8 amended: a successful BackendPath is `<entry>/v4l2-ctl` for some
nonempty search-path entry that passed the executable check; it is absolute
whenever every nonempty search-path entry is absolute (but not in general,
see the counterexample); and it is resolved once — every backend command of
the whole run is built from that same path. -/
theorem backendpath_shape_amended (env : Env) (p s : String)
    (hs : env.pathEnv = some s)
    (hp : findV4l2Ctl env = some p) :
    (∃ t ∈ getlineSplit s, t ≠ "" ∧ p = candidateOf t ∧ env.isExec p = true) ∧
    ((∀ t ∈ getlineSplit s, t ≠ "" → isAbsolutePath t = true) →
      isAbsolutePath p = true) ∧
    spawnsIn (mainFn env).1 =
      (env.globMatches.filter env.isCharDev).flatMap
        (fun x => [cmdAll p x, cmdExt p x]) := by
  have hloop : findLoop env (getlineSplit s) = some p := by
    have := hp
    rw [findV4l2Ctl, hs] at this
    exact this
  obtain ⟨t, ht, htne, hpt, hx⟩ := findLoop_some env (getlineSplit s) p hloop
  refine ⟨⟨t, ht, htne, hpt, by rw [hpt]; exact hx⟩, ?_, spawnsIn_mainFn env p hp⟩
  intro habs
  rw [hpt, candidateOf, isAbsolutePath_append t _ htne]
  exact habs t ht htne

/-- Witness for C8's amended statement at a one-camera environment with an
absolute `PATH` entry. -/
theorem backendpath_shape_amended_witness :
    (∃ t ∈ getlineSplit "/usr/bin", t ≠ "" ∧
      "/usr/bin/v4l2-ctl" = candidateOf t ∧ envOneCam.isExec "/usr/bin/v4l2-ctl" = true) ∧
    isAbsolutePath "/usr/bin/v4l2-ctl" = true ∧
    spawnsIn (mainFn envOneCam).1 =
      [cmdAll "/usr/bin/v4l2-ctl" "/dev/video0",
       cmdExt "/usr/bin/v4l2-ctl" "/dev/video0"] := by
  have h := backendpath_shape_amended envOneCam "/usr/bin/v4l2-ctl" "/usr/bin" rfl rfl
  exact ⟨h.1, h.2.1 (by decide), h.2.2⟩

/-! ### C9 -/

/-- The backend command lines a run with BackendPath `p` and DeviceSet `ds`
issues, in order. -/
def cmdsOf (p : String) (ds : List String) : List String :=
  ds.flatMap (fun d => [cmdAll p d, cmdExt p d])

lemma findLoop_congr (e1 e2 : Env) (ts : List String)
    (h : ∀ t ∈ ts, e1.isExec (candidateOf t) = e2.isExec (candidateOf t)) :
    findLoop e1 ts = findLoop e2 ts := by
  induction ts with
  | nil => rfl
  | cons t ts ih =>
    have ht := h t (List.mem_cons_self t ts)
    have hrest := fun u hu => h u (List.mem_cons_of_mem t hu)
    by_cases hte : t = ""
    · simp [findLoop, hte, ih hrest]
    · simp [findLoop, hte, ht, ih hrest]

lemma runCommandAndPrint_congr (e1 e2 : Env) (c : String)
    (hs : e1.spawn c = e2.spawn c)
    (hp : e1.pcloseStatus c = e2.pcloseStatus c)
    (he : e1.strerr c = e2.strerr c) :
    runCommandAndPrint e1 c = runCommandAndPrint e2 c := by
  unfold runCommandAndPrint
  rw [hs, hp, he]

lemma inspectDevice_congr (e1 e2 : Env) (p d : String)
    (h1 : e1.spawn (cmdAll p d) = e2.spawn (cmdAll p d))
    (h2 : e1.pcloseStatus (cmdAll p d) = e2.pcloseStatus (cmdAll p d))
    (h3 : e1.strerr (cmdAll p d) = e2.strerr (cmdAll p d))
    (h4 : e1.spawn (cmdExt p d) = e2.spawn (cmdExt p d))
    (h5 : e1.pcloseStatus (cmdExt p d) = e2.pcloseStatus (cmdExt p d))
    (h6 : e1.strerr (cmdExt p d) = e2.strerr (cmdExt p d)) :
    inspectDevice e1 p d = inspectDevice e2 p d := by
  unfold inspectDevice
  rw [runCommandAndPrint_congr e1 e2 _ h1 h2 h3, runCommandAndPrint_congr e1 e2 _ h4 h5 h6]

lemma flatMap_congr_aux (f g : String → List Ev) (l : List String)
    (h : ∀ d ∈ l, f d = g d) : l.flatMap f = l.flatMap g := by
  induction l with
  | nil => rfl
  | cons d l ih =>
    rw [List.flatMap_cons, List.flatMap_cons,
        h d (List.mem_cons_self d l), ih (fun x hx => h x (List.mem_cons_of_mem d hx))]

/-- C9: the program is deterministic in its observable inputs.  Two
environments that agree on the search-path variable, on executability of the
candidates built from its entries, on the glob matches, on the file type of
each match, and on the backend's behaviour (spawn result, close status,
close-error text) for each command the run issues, produce identical traces —
in particular byte-identical reports — and identical exit codes. -/
theorem deterministic_report (e1 e2 : Env)
    (hpath : e1.pathEnv = e2.pathEnv)
    (hexec : ∀ s, e1.pathEnv = some s →
      ∀ t ∈ getlineSplit s, e1.isExec (candidateOf t) = e2.isExec (candidateOf t))
    (hglob : e1.globMatches = e2.globMatches)
    (hchar : ∀ d ∈ e1.globMatches, e1.isCharDev d = e2.isCharDev d)
    (hback : ∀ p, findV4l2Ctl e1 = some p →
      ∀ c ∈ cmdsOf p (e1.globMatches.filter e1.isCharDev),
        e1.spawn c = e2.spawn c ∧ e1.pcloseStatus c = e2.pcloseStatus c ∧
        e1.strerr c = e2.strerr c) :
    mainFn e1 = mainFn e2 ∧
    stdoutOf (mainFn e1).1 = stdoutOf (mainFn e2).1 := by
  have hfind : findV4l2Ctl e1 = findV4l2Ctl e2 := by
    cases h1 : e1.pathEnv with
    | none =>
      have h2 : e2.pathEnv = none := hpath ▸ h1
      simp [findV4l2Ctl, h1, h2]
    | some s =>
      have h2 : e2.pathEnv = some s := hpath ▸ h1
      simp only [findV4l2Ctl, h1, h2]
      exact findLoop_congr e1 e2 (getlineSplit s) (hexec s h1)
  have hdev : e1.globMatches.filter e1.isCharDev =
      e2.globMatches.filter e2.isCharDev := by
    rw [← hglob]
    exact List.filter_congr hchar
  suffices hmain : mainFn e1 = mainFn e2 by
    exact ⟨hmain, by rw [hmain]⟩
  cases hf : findV4l2Ctl e1 with
  | none =>
    have hf2 : findV4l2Ctl e2 = none := hfind ▸ hf
    simp [mainFn, hf, hf2]
  | some p =>
    have hf2 : findV4l2Ctl e2 = some p := hfind ▸ hf
    have hinspect : ∀ d ∈ e1.globMatches.filter e1.isCharDev,
        inspectDevice e1 p d = inspectDevice e2 p d := by
      intro d hd
      have hmem1 : cmdAll p d ∈ cmdsOf p (e1.globMatches.filter e1.isCharDev) :=
        List.mem_flatMap.mpr ⟨d, hd, by simp⟩
      have hmem2 : cmdExt p d ∈ cmdsOf p (e1.globMatches.filter e1.isCharDev) :=
        List.mem_flatMap.mpr ⟨d, hd, by simp⟩
      obtain ⟨a1, a2, a3⟩ := hback p hf (cmdAll p d) hmem1
      obtain ⟨b1, b2, b3⟩ := hback p hf (cmdExt p d) hmem2
      exact inspectDevice_congr e1 e2 p d a1 a2 a3 b1 b2 b3
    by_cases hg : e1.globMatches = []
    · have hg2 : e2.globMatches = [] := hglob ▸ hg
      simp [mainFn, hf, hf2, hg, hg2]
    · by_cases hde : e1.globMatches.filter e1.isCharDev = []
      · have hg2 : e2.globMatches ≠ [] := hglob ▸ hg
        have hde2 : e2.globMatches.filter e2.isCharDev = [] := hdev ▸ hde
        rw [mainFn_nochar e1 p hf hg hde, mainFn_nochar e2 p hf2 hg2 hde2]
      · have hde2 : e2.globMatches.filter e2.isCharDev ≠ [] := hdev ▸ hde
        rw [mainFn_report e1 p hf hde, mainFn_report e2 p hf2 hde2]
        rw [← hdev, flatMap_congr_aux (inspectDevice e1 p) (inspectDevice e2 p) _ hinspect]

/-- A second copy of the one-camera environment that differs from
`envOneCam` only in unobserved places: executability of a candidate not on
the search path, and the spawn behaviour of a command the run never issues. -/
def envOneCamShadow : Env :=
  { pathEnv := some "/usr/bin"
    isExec := fun s => s == "/usr/bin/v4l2-ctl" || s == "/opt/v4l2-ctl"
    globMatches := ["/dev/video0"]
    isCharDev := fun s => s == "/dev/video0"
    spawn := fun c => if c == "unrelated-command" then none else some ["hello\n"]
    pcloseStatus := fun _ => 0
    strerr := fun _ => "" }

/-- Witness for C9: `envOneCam` and `envOneCamShadow` agree on everything the
run observes and produce identical traces. -/
theorem deterministic_report_witness :
    mainFn envOneCam = mainFn envOneCamShadow ∧
    stdoutOf (mainFn envOneCam).1 = stdoutOf (mainFn envOneCamShadow).1 :=
  deterministic_report envOneCam envOneCamShadow rfl
    (by intro s hs
        have h0 : envOneCam.pathEnv = some "/usr/bin" := rfl
        rw [h0] at hs
        have hsv : s = "/usr/bin" := (Option.some_inj.mp hs).symm
        subst hsv
        decide)
    rfl
    (by decide)
    (by intro p hp
        have h0 : findV4l2Ctl envOneCam = some "/usr/bin/v4l2-ctl" := rfl
        rw [h0] at hp
        have hpv : p = "/usr/bin/v4l2-ctl" := (Option.some_inj.mp hp).symm
        subst hpv
        decide)

/-! ### C10 -/

lemma errsIn_mapFwd (ls : List String) : errsIn (ls.map Ev.fwd) = [] := by
  induction ls with
  | nil => rfl
  | cons a l ih => simp [errsIn, List.filterMap_cons, ih]

/-- C10 (implicit): the backend's own exit status is never inspected.  Any
two successful spawns of the same command with the same output, whose
`pclose` statuses are merely different from `-1` (for example a nonzero child
exit status versus a zero one), produce identical `runCommandAndPrint`
results: same events, no error line, and return value 0 — so a failing
backend is indistinguishable in the report from a successful one. -/
theorem exit_status_ignored (e1 e2 : Env) (c : String) (ls : List String)
    (h1 : e1.spawn c = some ls) (h2 : e2.spawn c = some ls)
    (n1 : e1.pcloseStatus c ≠ -1) (n2 : e2.pcloseStatus c ≠ -1) :
    runCommandAndPrint e1 c = runCommandAndPrint e2 c ∧
    (runCommandAndPrint e1 c).2 = 0 ∧
    errsIn (runCommandAndPrint e1 c).1 = [] := by
  refine ⟨?_, ?_, ?_⟩ <;>
    cases ls <;>
      simp [runCommandAndPrint, h1, h2, n1, n2, errsIn, List.filterMap_cons,
            List.filterMap_append, errsIn_mapFwd]

/-- An environment whose backend exits with a nonzero status (`pclose`
returns 256) after printing one line. -/
def envChildFails : Env :=
  { pathEnv := some "/usr/bin"
    isExec := fun s => s == "/usr/bin/v4l2-ctl"
    globMatches := ["/dev/video0"]
    isCharDev := fun s => s == "/dev/video0"
    spawn := fun _ => some ["x\n"]
    pcloseStatus := fun _ => 256
    strerr := fun _ => "" }

/-- The same environment with a cleanly exiting backend (`pclose` returns 0). -/
def envChildOk : Env :=
  { pathEnv := some "/usr/bin"
    isExec := fun s => s == "/usr/bin/v4l2-ctl"
    globMatches := ["/dev/video0"]
    isCharDev := fun s => s == "/dev/video0"
    spawn := fun _ => some ["x\n"]
    pcloseStatus := fun _ => 0
    strerr := fun _ => "" }

/-- Witness for C10: a child exiting 1 (`pclose` = 256) is indistinguishable
from a child exiting 0. -/
theorem exit_status_ignored_witness :
    runCommandAndPrint envChildFails "q" = runCommandAndPrint envChildOk "q" ∧
    (runCommandAndPrint envChildFails "q").2 = 0 ∧
    errsIn (runCommandAndPrint envChildFails "q").1 = [] :=
  exit_status_ignored envChildFails envChildOk "q" ["x\n"]
    rfl rfl (by decide) (by decide)
